import Mathlib

/-
Shallow embedding of the HexaScan monitoring agent's task-execution core:
the check registry (checks/registry.py), the status-normalization map and
per-task dispatch (agent.py), the API client's backoff policy and response
classification (communication/api_client.py), the path permission policy
(config/loader.py), and the task-field resolver of get_tasks.
-/

namespace HexaScan

/-! ## JSON-like values (Python untyped dict payloads) -/

/-- Untyped JSON-like values as they appear in Python dicts
(`Dict[str, Any]` payloads of the API client). -/
inductive JVal where
  | null
  | str (s : String)
  | num (n : Int)
  | bool (b : Bool)
  | list (xs : List JVal)
  | obj (fields : List (String × JVal))

/-- Python truthiness of a JSON-like value (`bool(v)`): None, "", 0, False,
empty list and empty dict are falsy. -/
def JVal.truthy : JVal → Bool
  | .null => false
  | .str s => !(s == "")
  | .num n => !(n == 0)
  | .bool b => b
  | .list xs => !xs.isEmpty
  | .obj fields => !fields.isEmpty

/-- Python `d.get(k, default)` on a string-keyed dict. -/
def dictGet (o : List (String × JVal)) (k : String) (d : JVal) : JVal :=
  (List.lookup k o).getD d

/-- Python `a or b`: returns `a` when `a` is truthy, otherwise `b`. -/
def pyOr (a b : JVal) : JVal :=
  if a.truthy then a else b

/-! ## Check statuses and the Orchestrator's status map (checks/base.py, agent.py) -/

/-- CheckStatus enum from checks/base.py. -/
inductive CheckStatus where
  | passed
  | warning
  | critical
  | error
  | failed
deriving DecidableEq, Repr

/-- String value of each CheckStatus member (the `.value` of the str-Enum). -/
def CheckStatus.value : CheckStatus → String
  | .passed => "passed"
  | .warning => "warning"
  | .critical => "critical"
  | .error => "error"
  | .failed => "failed"

/-- The `status_map` dict of agent.py lines 262-268 applied with
`status_map.get(v, 'ERROR')` (line 273): a total function on strings whose
default branch returns "ERROR". -/
def status_map (v : String) : String :=
  if v = "passed" then "PASSED"
  else if v = "warning" then "WARNING"
  else if v = "critical" then "CRITICAL"
  else if v = "error" then "ERROR"
  else if v = "failed" then "ERROR"
  else "ERROR"

/-! ## Check registry (checks/registry.py) -/

/-- A check class is identified by its (class) name; instantiating it with a
config produces an instance holding that config (BaseCheck.__init__). -/
abbrev CheckClass := String

/-- Untyped check configuration mapping. -/
abbrev CheckConfig := List (String × JVal)

/-- A constructed check instance: `check_class(config=config)` stores the
class identity and the configuration (BaseCheck.__init__ stores config). -/
structure CheckInstance where
  cls : CheckClass
  config : CheckConfig

/-- The CheckRegistry._checks dict: association list keyed by check type. -/
abbrev RegistryState := List (String × CheckClass)

/-- Python dict assignment `d[k] = v`: replaces the value of an existing key
or appends a fresh binding. -/
def dictInsert (r : RegistryState) (k : String) (v : CheckClass) : RegistryState :=
  match r with
  | [] => [(k, v)]
  | (k1, v1) :: rest =>
      if k1 = k then (k, v) :: rest
      else (k1, v1) :: dictInsert rest k v

/-- CheckRegistry.register: `cls._checks[check_type] = check_class`
(re-registering the same type overwrites, with only a logged warning). -/
def registry_register (r : RegistryState) (check_type : String) (cls : CheckClass) :
    RegistryState :=
  dictInsert r check_type cls

/-- CheckRegistry.get: `cls._checks.get(check_type)`. -/
def registry_get (r : RegistryState) (check_type : String) : Option CheckClass :=
  List.lookup check_type r

/-- CheckRegistry.create: looks the class up; returns None when the type is
unregistered, otherwise constructs `check_class(config=config)`. -/
def registry_create (r : RegistryState) (check_type : String) (config : CheckConfig) :
    Option CheckInstance :=
  match registry_get r check_type with
  | none => none
  | some cls => some ⟨cls, config⟩

/-! ## Path permission policy (config/loader.py AgentConfig.is_path_allowed) -/

/-- Python `s.startswith(pre)`, embedded on the character data of the two
strings. -/
def startswith (s pre : String) : Bool := pre.data.isPrefixOf s.data

/-- AgentConfig.is_path_allowed, with `os.path.abspath` abstracted as a
function parameter: denied-path prefixes are checked first and win; the path
is otherwise allowed only when some allowed-path prefix matches; neither
match means denied. -/
def is_path_allowed (abspath : String → String) (denied allowed : List String)
    (path : String) : Bool :=
  let p := abspath path
  if denied.any (fun d => startswith p (abspath d)) then false
  else allowed.any (fun a => startswith p (abspath a))

/-! ## Claims about the registry, status map and path policy -/

/-- Appendix lemma: looking up a key right after dict assignment of that key
yields the assigned value. -/
theorem lookup_dictInsert (r : RegistryState) (k : String) (v : CheckClass) :
    List.lookup k (dictInsert r k v) = some v := by
  induction r with
  | nil => simp [dictInsert, List.lookup]
  | cons h t ih =>
      obtain ⟨k1, v1⟩ := h
      by_cases hk : k1 = k
      · simp [dictInsert, hk, List.lookup]
      · simp only [dictInsert, if_neg hk, List.lookup]
        have : (k == k1) = false := by
          simp [beq_iff_eq]
          exact fun h => hk h.symm
        simp [this, ih]

/-- Claim C5: the Orchestrator's status map is a total deterministic function
sending passed to PASSED, warning to WARNING, critical to CRITICAL, error to
ERROR and failed to ERROR, and any string that is none of the five internal
status values to ERROR (defensive default). -/
theorem c5_status_map_total :
    status_map CheckStatus.passed.value = "PASSED" ∧
    status_map CheckStatus.warning.value = "WARNING" ∧
    status_map CheckStatus.critical.value = "CRITICAL" ∧
    status_map CheckStatus.error.value = "ERROR" ∧
    status_map CheckStatus.failed.value = "ERROR" ∧
    (∀ s : String, s ≠ "passed" → s ≠ "warning" → s ≠ "critical" →
      s ≠ "error" → s ≠ "failed" → status_map s = "ERROR") := by
  refine ⟨rfl, rfl, rfl, rfl, rfl, ?_⟩
  intro s h1 h2 h3 h4 h5
  simp [status_map, h1, h2, h3, h4, h5]

/-- Witness for C5: the defensive default at the concrete unmapped status
string "unknown". -/
theorem c5_status_map_total_witness : status_map "unknown" = "ERROR" := by
  have h := c5_status_map_total
  exact h.2.2.2.2.2 "unknown" (by decide) (by decide) (by decide) (by decide) (by decide)

/-- Claim C7: for every registered check type the registry's create returns a
non-null instance built by the registered class from the given config, and for
every unregistered type it returns the not-found signal None (the not-found
path performs no construction and, in the embedding, is a total function, so
it never raises). -/
theorem c7_registry_create (r : RegistryState) (ct : String) (cfg : CheckConfig) :
    (∀ cls, registry_get r ct = some cls →
      registry_create r ct cfg = some ⟨cls, cfg⟩) ∧
    (registry_get r ct = none → registry_create r ct cfg = none) := by
  constructor
  · intro cls h
    simp [registry_create, h]
  · intro h
    simp [registry_create, h]

/-- Witness for C7: a registry holding DISK_USAGE; create succeeds on the
registered type and returns None on an unregistered one. -/
theorem c7_registry_create_witness :
    registry_create [("DISK_USAGE", "DiskUsageCheck")] "DISK_USAGE" [] =
      some ⟨"DiskUsageCheck", []⟩ ∧
    registry_create [("DISK_USAGE", "DiskUsageCheck")] "NO_SUCH_CHECK" [] = none := by
  constructor
  · exact (c7_registry_create [("DISK_USAGE", "DiskUsageCheck")] "DISK_USAGE" []).1
      "DiskUsageCheck" (by decide)
  · exact (c7_registry_create [("DISK_USAGE", "DiskUsageCheck")] "NO_SUCH_CHECK" []).2
      (by decide)

/-- Claim C9: re-registering an already-registered check type overwrites the
previous entry: after registering class F1 then F2 under the same type, both
lookup and create use F2, for every starting registry state. -/
theorem c9_reregister_overwrites (r : RegistryState) (t : String)
    (f1 f2 : CheckClass) (cfg : CheckConfig) :
    registry_get (registry_register (registry_register r t f1) t f2) t = some f2 ∧
    registry_create (registry_register (registry_register r t f1) t f2) t cfg =
      some ⟨f2, cfg⟩ := by
  have h := lookup_dictInsert (registry_register r t f1) t f2
  simp only [registry_register] at h
  refine ⟨h, ?_⟩
  simp only [registry_register, registry_create, registry_get, h]

/-- Claim C10: is_path_allowed is default-deny with denied-prefix priority:
a path whose absolute form extends some denied absolute prefix is denied
regardless of the allowed list; otherwise the path is allowed exactly when its
absolute form extends some allowed absolute prefix; a path matching neither
list is denied. -/
theorem c10_path_policy (abspath : String → String) (denied allowed : List String)
    (path : String) :
    ((∃ d ∈ denied, startswith (abspath path) (abspath d) = true) →
      is_path_allowed abspath denied allowed path = false) ∧
    ((∀ d ∈ denied, startswith (abspath path) (abspath d) = false) →
      (is_path_allowed abspath denied allowed path = true ↔
        ∃ a ∈ allowed, startswith (abspath path) (abspath a) = true)) ∧
    ((∀ d ∈ denied, startswith (abspath path) (abspath d) = false) →
      (∀ a ∈ allowed, startswith (abspath path) (abspath a) = false) →
      is_path_allowed abspath denied allowed path = false) := by
  refine ⟨?_, ?_, ?_⟩
  · intro h
    have hd : denied.any (fun d => startswith (abspath path) (abspath d)) = true := by
      rw [List.any_eq_true]
      obtain ⟨d, hd, hs⟩ := h
      exact ⟨d, hd, hs⟩
    simp [is_path_allowed, hd]
  · intro h
    have hd : denied.any (fun d => startswith (abspath path) (abspath d)) = false := by
      rw [List.any_eq_false]
      intro d hdm
      simp [h d hdm]
    simp [is_path_allowed, hd, List.any_eq_true]
  · intro h ha
    have hd : denied.any (fun d => startswith (abspath path) (abspath d)) = false := by
      rw [List.any_eq_false]
      intro d hdm
      simp [h d hdm]
    have ha2 : allowed.any (fun a => startswith (abspath path) (abspath a)) = false := by
      rw [List.any_eq_false]
      intro a ham
      simp [ha a ham]
    simp [is_path_allowed, hd, ha2]

/-- Witness for C10: with identity as abspath, "/etc/shadow/x" is denied by
the denied prefix "/etc/shadow" even though "/etc" would allow it, and
"/home/u" (matching neither list) is denied. -/
theorem c10_path_policy_witness :
    is_path_allowed id ["/etc/shadow"] ["/etc"] "/etc/shadow/x" = false ∧
    is_path_allowed id ["/etc/shadow"] ["/var/log"] "/home/u" = false := by
  constructor
  · exact (c10_path_policy id ["/etc/shadow"] ["/etc"] "/etc/shadow/x").1
      ⟨"/etc/shadow", by decide, by decide⟩
  · exact (c10_path_policy id ["/etc/shadow"] ["/var/log"] "/home/u").2.2
      (by decide) (by decide)

/-! ## Backoff policy and response classification (communication/api_client.py) -/

/-- ApiClient.RATE_LIMIT_BACKOFF (seconds). -/
def RATE_LIMIT_BACKOFF : List Nat := [120, 240, 600]

/-- ApiClient.SERVER_ERROR_BACKOFF (seconds). -/
def SERVER_ERROR_BACKOFF : List Nat := [300, 600, 1200]

/-- The ApiClient's backoff state: `_current_backoff_index` and
`_last_error_type`. -/
structure BackoffState where
  currentBackoffIndex : Nat
  lastErrorType : Option String
deriving DecidableEq, Repr

/-- ApiClient._reset_backoff: index back to 0, last error type cleared. -/
def reset_backoff : BackoffState := ⟨0, none⟩

/-- The table chosen by get_backoff_interval: the rate-limit list for
"rate_limit" and the server-error list for every other string (the Python
`else` branch). -/
def backoffTable (error_type : String) : List Nat :=
  if error_type = "rate_limit" then RATE_LIMIT_BACKOFF else SERVER_ERROR_BACKOFF

/-- ApiClient.get_backoff_interval: if the error type differs from the last
one the index is reset to 0 and the last error type updated; the interval is
the chosen table's entry at the index capped at the last position; the index
is then advanced by one. Returns the interval and the updated state. -/
def get_backoff_interval (error_type : String) (s : BackoffState) : Nat × BackoffState :=
  let s1 := if s.lastErrorType = some error_type then s
            else { currentBackoffIndex := 0, lastErrorType := some error_type }
  let l := backoffTable error_type
  let interval := l.getD (min s1.currentBackoffIndex (l.length - 1)) 0
  (interval, { s1 with currentBackoffIndex := s1.currentBackoffIndex + 1 })

/-- The five failure kinds of communication/exceptions.py; every one of them
is a subclass of ApiError in the source. -/
inductive ApiErrKind where
  | auth
  | rateLimit (retryAfter : Nat)
  | serverErr
  | connErr
  | otherApi
deriving DecidableEq, Repr

/-- ApiClient._handle_response over the HTTP status code and a numeric
Retry-After header: 2xx succeeds and resets the backoff state
(`_reset_backoff`), 401/403 raise AuthenticationError, 429 raises
RateLimitError carrying the Retry-After value (default 120), 5xx raises
ServerError and any other status raises a generic ApiError. Errors leave the
backoff state unchanged. -/
def handle_response (status : Nat) (retryAfter : Option Nat) (s : BackoffState) :
    Except ApiErrKind BackoffState :=
  if 200 ≤ status ∧ status < 300 then .ok reset_backoff
  else if status = 401 ∨ status = 403 then .error .auth
  else if status = 429 then .error (.rateLimit (retryAfter.getD 120))
  else if 500 ≤ status then .error .serverErr
  else .error .otherApi

/-- Appendix lemma: both backoff tables have three entries. -/
theorem backoffTable_length (et : String) : (backoffTable et).length = 3 := by
  unfold backoffTable
  split <;> rfl

/-- Appendix lemma: the capped table entry is non-decreasing in the index,
for both backoff tables. -/
theorem backoffTable_getD_step (et : String) (k : Nat) :
    (backoffTable et).getD (min k 2) 0 ≤ (backoffTable et).getD (min (k + 1) 2) 0 := by
  have htab : backoffTable et = RATE_LIMIT_BACKOFF ∨
      backoffTable et = SERVER_ERROR_BACKOFF := by
    unfold backoffTable
    split
    · exact Or.inl rfl
    · exact Or.inr rfl
  rcases htab with h | h <;> rw [h] <;> rcases k with _ | _ | k
  · decide
  · decide
  · have h1 : min (k + 1 + 1) 2 = 2 := by omega
    have h2 : min (k + 1 + 1 + 1) 2 = 2 := by omega
    rw [h1, h2]
  · decide
  · decide
  · have h1 : min (k + 1 + 1) 2 = 2 := by omega
    have h2 : min (k + 1 + 1 + 1) 2 = 2 := by omega
    rw [h1, h2]

/-- Appendix lemma: the capped table entry never exceeds the last entry of
the table, for both backoff tables. -/
theorem backoffTable_getD_bound (et : String) (k : Nat) :
    (backoffTable et).getD (min k 2) 0 ≤ (backoffTable et).getD 2 0 := by
  have htab : backoffTable et = RATE_LIMIT_BACKOFF ∨
      backoffTable et = SERVER_ERROR_BACKOFF := by
    unfold backoffTable
    split
    · exact Or.inl rfl
    · exact Or.inr rfl
  rcases htab with h | h <;> rw [h] <;> rcases k with _ | _ | k
  · decide
  · decide
  · have h1 : min (k + 1 + 1) 2 = 2 := by omega
    rw [h1]
  · decide
  · decide
  · have h1 : min (k + 1 + 1) 2 = 2 := by omega
    rw [h1]

/-- Appendix lemma: the interval returned by get_backoff_interval is the
table entry at the (possibly class-switch-reset) index capped at position 2. -/
theorem get_backoff_interval_fst (et : String) (s : BackoffState) :
    (get_backoff_interval et s).1 =
      (backoffTable et).getD
        (min (if s.lastErrorType = some et then s.currentBackoffIndex else 0) 2) 0 := by
  obtain ⟨idx, last⟩ := s
  by_cases h : last = some et <;>
    simp [get_backoff_interval, h, backoffTable_length]

/-- Appendix lemma: the state after get_backoff_interval records the error
class and the advanced index. -/
theorem get_backoff_interval_state (et : String) (s : BackoffState) :
    (get_backoff_interval et s).2 =
      ⟨(if s.lastErrorType = some et then s.currentBackoffIndex else 0) + 1,
        some et⟩ := by
  obtain ⟨idx, last⟩ := s
  by_cases h : last = some et <;>
    simp [get_backoff_interval, h]

/-- Claim C3: for each error class, consecutive calls to get_backoff_interval
with the same class yield a non-decreasing pair of intervals bounded above by
the last entry of that class's backoff table; every successful API response
(2xx in _handle_response) resets the backoff state to index 0 with no last
error class, from which the next interval is the first table entry; and a call
whose class differs from the last recorded one also starts again at the first
table entry. -/
theorem c3_backoff_policy (et : String) (s : BackoffState)
    (het : et = "rate_limit" ∨ et = "server_error") :
    (get_backoff_interval et s).1 ≤
      (get_backoff_interval et (get_backoff_interval et s).2).1 ∧
    (get_backoff_interval et s).1 ≤
      (backoffTable et).getD ((backoffTable et).length - 1) 0 ∧
    (∀ status retryAfter, 200 ≤ status → status < 300 →
      handle_response status retryAfter s = .ok reset_backoff) ∧
    (get_backoff_interval et reset_backoff).1 = (backoffTable et).getD 0 0 ∧
    (s.lastErrorType ≠ some et →
      (get_backoff_interval et s).1 = (backoffTable et).getD 0 0) := by
  refine ⟨?_, ?_, ?_, ?_, ?_⟩
  · rw [get_backoff_interval_state]
    rw [get_backoff_interval_fst et s, get_backoff_interval_fst]
    simp only [if_pos rfl]
    exact backoffTable_getD_step et _
  · rw [get_backoff_interval_fst, backoffTable_length]
    exact backoffTable_getD_bound et _
  · intro status retryAfter h1 h2
    simp [handle_response, h1, h2]
  · rw [get_backoff_interval_fst]
    simp [reset_backoff]
  · intro hne
    rw [get_backoff_interval_fst]
    simp [hne]

/-- Witness for C3 at the rate-limit class from the reset state: the first
interval is the first table entry (120), the second is 240, and a 2xx response
resets the state. -/
theorem c3_backoff_policy_witness :
    (get_backoff_interval "rate_limit" reset_backoff).1 =
      (backoffTable "rate_limit").getD 0 0 ∧
    handle_response 200 none reset_backoff = Except.ok reset_backoff := by
  have h := c3_backoff_policy "rate_limit" reset_backoff (Or.inl rfl)
  exact ⟨h.2.2.2.1, h.2.2.1 200 none (by decide) (by decide)⟩

/-! ## Agent loop model (agent.py start, _send_heartbeat, _poll_tasks)

The HTTP layer's behavior in one loop iteration is an environment value.
Crucially, `_send_heartbeat` wraps the heartbeat call in `except ApiError`
(agent.py line 210) and `_poll_tasks` wraps get_tasks in `except ApiError`
(line 220), and AuthenticationError, RateLimitError, ServerError and
ConnectionError are all subclasses of ApiError (exceptions.py), so none of
these error kinds ever escapes those two helpers; the loop-level handlers of
agent.py lines 167-181 are unreachable from heartbeat and task polling. The
embedding therefore models both helpers as absorbing every error kind. Task
execution is omitted from the iteration because `_execute_task` never touches
`running` or `_current_poll_interval`, the state the loop claims are about. -/

/-- Outcome of one HTTP call: a response with a status code and optional
numeric Retry-After header, or a transport failure (which _request converts
to the ConnectionError ApiError subclass). -/
inductive HttpOutcome where
  | resp (status : Nat) (retryAfter : Option Nat)
  | transportFail
deriving DecidableEq, Repr

/-- One API call as seen by the agent: classify the HTTP outcome through
_handle_response, with transport failures mapped to ConnectionError. -/
def apiCall (o : HttpOutcome) (s : BackoffState) : Except ApiErrKind BackoffState :=
  match o with
  | .resp st ra => handle_response st ra s
  | .transportFail => .error .connErr

/-- Runtime state of the agent loop: the `running` flag, the mutable
`_current_poll_interval`, the API client's backoff state, and the configured
poll interval (`config.api.poll_interval`). -/
structure AgentState where
  running : Bool
  pollInterval : Nat
  backoff : BackoffState
  configPollInterval : Nat
deriving DecidableEq, Repr

/-- HexaScanAgent._send_heartbeat: on success the poll interval is reset to
the configured value (and 2xx resets the backoff state inside
_handle_response); every ApiError subclass, including AuthenticationError and
RateLimitError, is caught by the `except ApiError` clause and only logged, so
the state is unchanged on every error. -/
def send_heartbeat (s : AgentState) (o : HttpOutcome) : AgentState :=
  match apiCall o s.backoff with
  | .ok bs => { s with backoff := bs, pollInterval := s.configPollInterval }
  | .error _ => s

/-- HexaScanAgent._poll_tasks: a successful call resets the backoff state
(via _handle_response); every ApiError is caught, logged, and an empty task
list returned, leaving the loop state unchanged. -/
def poll_tasks (s : AgentState) (o : HttpOutcome) : AgentState :=
  match apiCall o s.backoff with
  | .ok bs => { s with backoff := bs }
  | .error _ => s

/-- Observable actions of one loop iteration. -/
inductive LoopEvent where
  | heartbeatCall
  | pollCall
  | sleepFor (secs : Nat)
deriving DecidableEq, Repr

/-- Environment of one loop iteration: whether the heartbeat interval has
elapsed, and the HTTP outcomes of the heartbeat and task-poll calls. -/
structure IterEnv where
  heartbeatDue : Bool
  heartbeatHttp : HttpOutcome
  tasksHttp : HttpOutcome
deriving Repr

/-- One iteration of the main loop of HexaScanAgent.start (lines 146-188):
if still running, send the heartbeat when due, poll for tasks, then sleep for
the current poll interval. No ApiError kind can reach the loop-level except
clauses from these two calls (see the section comment), so the iteration
never stops the agent and never rewrites the poll interval from the backoff
tables. -/
def loopIter (s : AgentState) (env : IterEnv) : AgentState × List LoopEvent :=
  if s.running then
    let s1 := if env.heartbeatDue then send_heartbeat s env.heartbeatHttp else s
    let ev1 : List LoopEvent := if env.heartbeatDue then [.heartbeatCall] else []
    let s2 := poll_tasks s1 env.tasksHttp
    (s2, ev1 ++ [.pollCall, .sleepFor s2.pollInterval])
  else (s, [])

/-- The main loop run over a finite schedule of iteration environments. -/
def loopRun (s : AgentState) : List IterEnv → AgentState × List LoopEvent
  | [] => (s, [])
  | e :: es =>
      let r1 := loopIter s e
      let r2 := loopRun r1.1 es
      (r2.1, r1.2 ++ r2.2)

/-- A freshly started agent: running, with the configured 60-second poll
interval and a reset backoff state. -/
def initialAgentState : AgentState := ⟨true, 60, reset_backoff, 60⟩

/-- An iteration in which the heartbeat is due and returns HTTP 401, while
task polling succeeds. -/
def authFailIterEnv : IterEnv := ⟨true, .resp 401 none, .resp 200 none⟩

/-- An iteration in which the heartbeat is due and returns HTTP 429 with
Retry-After 300, while task polling succeeds. -/
def rateLimit429IterEnv : IterEnv := ⟨true, .resp 429 (some 300), .resp 200 none⟩

/-- Claim C2 (code behavior at the failing input): after a heartbeat that
returns HTTP 401 — raising AuthenticationError inside _handle_response — the
agent is still running and a further poll occurs in the following iteration,
because the AuthenticationError is swallowed by the `except ApiError` clause
of _send_heartbeat and never reaches the `except AuthenticationError` handler
of the loop. This contradicts the claim that `running` becomes false and no
further polls occur. -/
theorem c2_heartbeat_401_does_not_stop :
    (loopRun initialAgentState [authFailIterEnv, authFailIterEnv]).1.running = true ∧
    (loopRun initialAgentState [authFailIterEnv, authFailIterEnv]).2.count
      LoopEvent.pollCall = 2 := by
  decide

/-- Claim C4 (code behavior at the failing input): after a heartbeat that
returns HTTP 429 with Retry-After 300, the next poll interval is still the
configured 60 seconds — not the first rate-limit backoff value 120 — because
the RateLimitError is swallowed by the `except ApiError` clause of
_send_heartbeat and the loop's `except RateLimitError` handler (which would
have consulted get_backoff_interval) is never reached. -/
theorem c4_heartbeat_429_interval_unchanged :
    (loopIter initialAgentState rateLimit429IterEnv).1.pollInterval = 60 ∧
    (get_backoff_interval "rate_limit" reset_backoff).1 = 120 ∧
    (loopIter initialAgentState rateLimit429IterEnv).1.pollInterval ≠ 120 := by
  decide

/-! ## Per-task dispatch (agent.py _execute_task, _submit_error_result)

The environment fixes everything the dispatch interacts with: the path
permission answer for each path, the outcome of CheckRegistry.create for the
task's check type together with the behavior of the created check's execute()
(a returned CheckResult or a raised exception), and the behavior of each
successive ApiClient.submit_result call (success, a raised ApiError, or a
raised non-ApiError exception — submit_result can raise non-ApiError, e.g. a
ValueError from Retry-After parsing or a serialization TypeError). The model
returns the trace of observable events and the exception, if any, that
propagates out of _execute_task. -/

/-- Internal result of a check's execute() (checks/base.py CheckResult),
restricted to the fields _execute_task reads. -/
structure CheckResultI where
  status : CheckStatus
  score : Int
  message : Option String
deriving DecidableEq, Repr

/-- Wire-format TaskResult as built by _execute_task (communication
api_client.py TaskResult), restricted to the fields the claims mention. -/
structure TaskResultW where
  task_id : String
  status : String
  score : Int
  message : Option String
deriving DecidableEq, Repr

/-- Behavior of one submit_result call: return normally, raise an ApiError
subclass, or raise a non-ApiError exception (message already stringified). -/
inductive SubmitBehavior where
  | ok
  | raiseApi (msg : String)
  | raiseOther (msg : String)
deriving DecidableEq, Repr

/-- Behavior of a created check's execute(): return a CheckResult or raise an
exception with the given stringified message. -/
inductive ExecBehavior where
  | returns (r : CheckResultI)
  | raises (msg : String)
deriving DecidableEq, Repr

/-- A task as seen by _execute_task: its id, check type, and the value of
`task.config.get('paths', [])`. -/
structure TaskM where
  id : String
  check_type : String
  paths : List String
deriving Repr

/-- Environment of one _execute_task call; `submit n` is the behavior of the
n-th submit_result call made while handling this task. `create` returning
none models an unregistered check type (CheckRegistry.create gives None). -/
structure DispatchEnv where
  isPathAllowed : String → Bool
  create : String → Option ExecBehavior
  submit : Nat → SubmitBehavior

/-- Observable events of one dispatch: a submit_result attempt carrying the
submitted TaskResult, the construction of a check instance, and the
invocation of its execute(). -/
inductive DispatchEvent where
  | submitAttempt (r : TaskResultW)
  | instantiate
  | execCall
deriving DecidableEq, Repr

/-- agent.py _submit_error_result: builds an ERROR TaskResult with score 0
and the message, and calls submit_result once; an ApiError raised by the
submission is caught and logged there, while any other exception propagates
to the caller. Returns the events, the next submit-call index, and the
propagating exception message, if any. -/
def submit_error_result (env : DispatchEnv) (t : TaskM) (msg : String) (n : Nat) :
    List DispatchEvent × Nat × Option String :=
  let tr : TaskResultW := ⟨t.id, "ERROR", 0, some msg⟩
  match env.submit n with
  | .ok => ([.submitAttempt tr], n + 1, none)
  | .raiseApi _ => ([.submitAttempt tr], n + 1, none)
  | .raiseOther m => ([.submitAttempt tr], n + 1, some m)

/-- An error submission made inside the try block of _execute_task (the
denied-path return of lines 240-245 and the unknown-type return of lines
251-256): if that submission raises a non-ApiError, the exception is caught
by the blanket `except Exception` of line 282, which calls
_submit_error_result once more with the exception's message; an exception
from that second call propagates out of _execute_task. -/
def try_error_submit (env : DispatchEnv) (t : TaskM) (msg : String) :
    List DispatchEvent × Option String :=
  match submit_error_result env t msg 0 with
  | (ev, _, none) => (ev, none)
  | (ev, n, some m) =>
      let r2 := submit_error_result env t m n
      (ev ++ r2.1, r2.2.2)

/-- agent.py _execute_task (lines 224-288): check each configured path
against the permission policy and submit an error result at the first denial;
otherwise ask the registry for the check, submitting an error result when the
type is unknown; otherwise construct the check, call execute(), map the
result's status through status_map and submit it. Any exception raised inside
the try block — by execute(), or by a submission — is caught by the blanket
`except Exception` and answered with one _submit_error_result call carrying
the exception's message. -/
def execute_task (env : DispatchEnv) (t : TaskM) : List DispatchEvent × Option String :=
  match t.paths.find? (fun p => !(env.isPathAllowed p)) with
  | some p => try_error_submit env t ("Path not allowed by agent permissions: " ++ p)
  | none =>
      match env.create t.check_type with
      | none => try_error_submit env t ("Unknown check type: " ++ t.check_type)
      | some (.raises m) =>
          let r := submit_error_result env t m 0
          ([.instantiate, .execCall] ++ r.1, r.2.2)
      | some (.returns cr) =>
          let tr : TaskResultW := ⟨t.id, status_map cr.status.value, cr.score, cr.message⟩
          match env.submit 0 with
          | .ok => ([.instantiate, .execCall, .submitAttempt tr], none)
          | .raiseApi m =>
              let r := submit_error_result env t m 1
              ([.instantiate, .execCall, .submitAttempt tr] ++ r.1, r.2.2)
          | .raiseOther m =>
              let r := submit_error_result env t m 1
              ([.instantiate, .execCall, .submitAttempt tr] ++ r.1, r.2.2)

/-- Recognizer for submission-attempt events. -/
def isSubmitAttempt : DispatchEvent → Bool
  | .submitAttempt _ => true
  | _ => false

/-- Number of submit_result calls made while dispatching a task. -/
def submitAttemptCount (env : DispatchEnv) (t : TaskM) : Nat :=
  (execute_task env t).1.countP isSubmitAttempt

/-- Appendix lemma: one _submit_error_result call performs exactly one
submission attempt, of an ERROR result with score 0 and the given message,
whatever the submission's own outcome. -/
theorem submit_error_result_events (env : DispatchEnv) (t : TaskM) (msg : String)
    (n : Nat) :
    (submit_error_result env t msg n).1 =
      [DispatchEvent.submitAttempt ⟨t.id, "ERROR", 0, some msg⟩] := by
  unfold submit_error_result
  cases env.submit n <;> rfl

/-- Appendix lemma: when the n-th submit call succeeds, _submit_error_result
lets no exception propagate. -/
theorem submit_error_result_exc_ok (env : DispatchEnv) (t : TaskM) (msg : String)
    (n : Nat) (h : env.submit n = .ok) :
    (submit_error_result env t msg n).2.2 = none := by
  unfold submit_error_result
  rw [h]

/-- Appendix lemma: an in-try error submission performs one or two submission
attempts, all of them ERROR results for the handled task. -/
theorem try_error_submit_events (env : DispatchEnv) (t : TaskM) (msg : String) :
    ∀ e ∈ (try_error_submit env t msg).1,
      ∃ m, e = DispatchEvent.submitAttempt ⟨t.id, "ERROR", 0, some m⟩ := by
  intro e he
  cases hs0 : env.submit 0 with
  | ok =>
      simp [try_error_submit, submit_error_result, hs0] at he
      exact ⟨msg, he⟩
  | raiseApi m =>
      simp [try_error_submit, submit_error_result, hs0] at he
      exact ⟨msg, he⟩
  | raiseOther m =>
      cases hs1 : env.submit 1 with
      | ok =>
          simp [try_error_submit, submit_error_result, hs0, hs1] at he
          rcases he with he | he
          · exact ⟨msg, he⟩
          · exact ⟨m, he⟩
      | raiseApi m2 =>
          simp [try_error_submit, submit_error_result, hs0, hs1] at he
          rcases he with he | he
          · exact ⟨msg, he⟩
          · exact ⟨m, he⟩
      | raiseOther m2 =>
          simp [try_error_submit, submit_error_result, hs0, hs1] at he
          rcases he with he | he
          · exact ⟨msg, he⟩
          · exact ⟨m, he⟩

/-- Appendix lemma: the in-try error submission makes one or two attempts. -/
theorem try_error_submit_count (env : DispatchEnv) (t : TaskM) (msg : String) :
    (try_error_submit env t msg).1.countP isSubmitAttempt = 1 ∨
    (try_error_submit env t msg).1.countP isSubmitAttempt = 2 := by
  cases hs0 : env.submit 0 with
  | ok =>
      left
      simp [try_error_submit, submit_error_result, hs0, isSubmitAttempt]
  | raiseApi m =>
      left
      simp [try_error_submit, submit_error_result, hs0, isSubmitAttempt]
  | raiseOther m =>
      right
      cases hs1 : env.submit 1 <;>
        simp [try_error_submit, submit_error_result, hs0, hs1, isSubmitAttempt]

/-- Appendix lemma: when every submit call succeeds, the in-try error
submission is exactly one ERROR attempt. -/
theorem try_error_submit_ok (env : DispatchEnv) (t : TaskM) (msg : String)
    (h : ∀ n, env.submit n = .ok) :
    (try_error_submit env t msg).1 =
      [DispatchEvent.submitAttempt ⟨t.id, "ERROR", 0, some msg⟩] := by
  simp [try_error_submit, submit_error_result, h 0]

/-- Appendix lemma: every dispatch makes one or two submission attempts. -/
theorem submitAttemptCount_cases (env : DispatchEnv) (t : TaskM) :
    submitAttemptCount env t = 1 ∨ submitAttemptCount env t = 2 := by
  unfold submitAttemptCount execute_task
  cases hf : t.paths.find? (fun p => !(env.isPathAllowed p)) with
  | some p => exact try_error_submit_count env t _
  | none =>
      cases hc : env.create t.check_type with
      | none => exact try_error_submit_count env t _
      | some eb =>
          cases eb with
          | raises m =>
              left
              cases hs0 : env.submit 0 <;>
                simp [submit_error_result, hs0, isSubmitAttempt, List.countP_cons,
                  List.countP_nil]
          | returns cr =>
              cases hs0 : env.submit 0 with
              | ok =>
                  left
                  simp [hs0, isSubmitAttempt, List.countP_cons, List.countP_nil]
              | raiseApi m =>
                  right
                  cases hs1 : env.submit 1 <;>
                    simp [submit_error_result, hs0, hs1, isSubmitAttempt,
                      List.countP_cons, List.countP_nil]
              | raiseOther m =>
                  right
                  cases hs1 : env.submit 1 <;>
                    simp [submit_error_result, hs0, hs1, isSubmitAttempt,
                      List.countP_cons, List.countP_nil]

/-- Appendix lemma: when every submit_result call returns without raising,
exactly one submission attempt is made per dispatched task. -/
theorem submitAttemptCount_all_ok (env : DispatchEnv) (t : TaskM)
    (h : ∀ n, env.submit n = .ok) :
    submitAttemptCount env t = 1 := by
  unfold submitAttemptCount execute_task
  cases hf : t.paths.find? (fun p => !(env.isPathAllowed p)) with
  | some p =>
      rw [try_error_submit_ok env t _ h]
      rfl
  | none =>
      cases hc : env.create t.check_type with
      | none =>
          rw [try_error_submit_ok env t _ h]
          rfl
      | some eb =>
          cases eb with
          | raises m =>
              simp [submit_error_result, h 0, isSubmitAttempt, List.countP_cons,
                List.countP_nil]
          | returns cr =>
              simp [h 0, isSubmitAttempt, List.countP_cons, List.countP_nil]

/-- Appendix lemma: when the check's execute() raises and all paths are
permitted, exactly one (error) submission attempt is made, whatever the
submission's own outcome. -/
theorem submitAttemptCount_exec_raises (env : DispatchEnv) (t : TaskM) (m : String)
    (hc : env.create t.check_type = some (.raises m))
    (hp : t.paths.all env.isPathAllowed = true) :
    submitAttemptCount env t = 1 := by
  have hf : t.paths.find? (fun p => !(env.isPathAllowed p)) = none := by
    rw [List.find?_eq_none]
    intro p hpm
    rw [List.all_eq_true] at hp
    simp [hp p hpm]
  unfold submitAttemptCount execute_task
  rw [hf, hc]
  cases hs0 : env.submit 0 <;>
    simp [submit_error_result, hs0, isSubmitAttempt, List.countP_cons, List.countP_nil]

/-- Claim C1 (amended): every Task that enters _execute_task yields at least
one and at most two submit_result attempts; exactly one whenever every
submit_result call returns without raising — in particular, even when the
check's execute() raises an arbitrary exception, exactly one (error)
submission attempt is made; a second attempt can occur only when an earlier
submission attempt itself raised an exception. -/
theorem c1_submission_attempts (env : DispatchEnv) (t : TaskM) :
    1 ≤ submitAttemptCount env t ∧
    submitAttemptCount env t ≤ 2 ∧
    ((∀ n, env.submit n = .ok) → submitAttemptCount env t = 1) ∧
    (∀ m, env.create t.check_type = some (.raises m) →
      t.paths.all env.isPathAllowed = true → submitAttemptCount env t = 1) := by
  refine ⟨?_, ?_, fun h => submitAttemptCount_all_ok env t h,
    fun m hc hp => submitAttemptCount_exec_raises env t m hc hp⟩
  · rcases submitAttemptCount_cases env t with h | h <;> omega
  · rcases submitAttemptCount_cases env t with h | h <;> omega

/-- Environment refuting the original C1: all paths allowed, the check
executes successfully with a passed/100 result, but the first submit_result
call raises an ApiError; the blanket except clause then makes a second
submission attempt for the same task. -/
def c1ceEnv : DispatchEnv :=
  ⟨fun _ => true,
   fun _ => some (.returns ⟨.passed, 100, none⟩),
   fun n => if n = 0 then .raiseApi "connection reset" else .ok⟩

/-- The task dispatched in the C1 counterexample. -/
def c1ceTask : TaskM := ⟨"task-1", "DISK_USAGE", []⟩

/-- Claim C1 counterexample: when the successful check result's submission
itself raises an ApiError, _execute_task makes a second submission attempt
(an ERROR result) for the same task — two submit_result attempts in total,
refuting "exactly one submission attempt ... never submitted twice". -/
theorem c1_counterexample :
    submitAttemptCount c1ceEnv c1ceTask = 2 ∧
    (execute_task c1ceEnv c1ceTask).1 =
      [DispatchEvent.instantiate, DispatchEvent.execCall,
       DispatchEvent.submitAttempt ⟨"task-1", "PASSED", 100, none⟩,
       DispatchEvent.submitAttempt ⟨"task-1", "ERROR", 0, some "connection reset"⟩] := by
  constructor
  · rfl
  · rfl

/-- Environment for the C1 witness: all paths allowed, successful execution,
every submission succeeds. -/
def c1wEnv : DispatchEnv :=
  ⟨fun _ => true,
   fun _ => some (.returns ⟨.passed, 100, none⟩),
   fun _ => .ok⟩

/-- Witness for (amended) C1: with every submission succeeding, the dispatch
of a concrete task makes exactly one submission attempt. -/
theorem c1_submission_attempts_witness :
    submitAttemptCount c1wEnv c1ceTask = 1 :=
  (c1_submission_attempts c1wEnv c1ceTask).2.2.1 (fun _ => rfl)

/-- Environment refuting the original C6: the task's path is denied, but the
error submission's submit_result call raises a non-ApiError (as the
ValueError from Retry-After parsing at api_client.py line 143 can); it
escapes _submit_error_result's `except ApiError`, is caught by the blanket
`except Exception` of agent.py line 282, and a second ERROR submission
attempt is made. -/
def c6ceEnv : DispatchEnv :=
  ⟨fun _ => false,
   fun _ => some (.returns ⟨.passed, 100, none⟩),
   fun n => if n = 0 then .raiseOther "invalid literal for int() with base 10" else .ok⟩

/-- The task dispatched in the C6 counterexample, configured with a denied
path. -/
def c6ceTask : TaskM := ⟨"task-3", "DISK_USAGE", ["/etc/shadow"]⟩

/-- Claim C6 counterexample: a task with a denied path for which the first
error submission itself raises a non-ApiError yields two ERROR submission
attempts, refuting the unconditional "submits exactly one Error result". The
check is still never instantiated. -/
theorem c6_counterexample :
    c6ceTask.paths.any (fun p => !(c6ceEnv.isPathAllowed p)) = true ∧
    submitAttemptCount c6ceEnv c6ceTask = 2 ∧
    (execute_task c6ceEnv c6ceTask).1 =
      [DispatchEvent.submitAttempt
        ⟨"task-3", "ERROR", 0, some "Path not allowed by agent permissions: /etc/shadow"⟩,
       DispatchEvent.submitAttempt
        ⟨"task-3", "ERROR", 0, some "invalid literal for int() with base 10"⟩] := by
  refine ⟨rfl, rfl, rfl⟩

/-- Claim C6 (amended): for every task with at least one denied path among
its configured paths, _execute_task never constructs a check instance and
never calls execute(); every submission attempt made for the task is an ERROR
result, and exactly one ERROR submission attempt is made whenever the
submission call itself does not raise — a second ERROR attempt occurs only
when the first submission raised a non-ApiError exception. -/
theorem c6_denied_path_no_execute (env : DispatchEnv) (t : TaskM)
    (hden : t.paths.any (fun p => !(env.isPathAllowed p)) = true) :
    DispatchEvent.instantiate ∉ (execute_task env t).1 ∧
    DispatchEvent.execCall ∉ (execute_task env t).1 ∧
    (∀ e ∈ (execute_task env t).1,
      ∃ m, e = DispatchEvent.submitAttempt ⟨t.id, "ERROR", 0, some m⟩) ∧
    ((∀ n, env.submit n = .ok) →
      ∃ m, (execute_task env t).1 =
        [DispatchEvent.submitAttempt ⟨t.id, "ERROR", 0, some m⟩]) := by
  obtain ⟨p, hf⟩ : ∃ p, t.paths.find? (fun p => !(env.isPathAllowed p)) = some p := by
    cases hf : t.paths.find? (fun p => !(env.isPathAllowed p)) with
    | some p => exact ⟨p, rfl⟩
    | none =>
        rw [List.find?_eq_none] at hf
        rw [List.any_eq_true] at hden
        obtain ⟨p, hp, hb⟩ := hden
        exact absurd hb (by simpa using hf p hp)
  have hev : (execute_task env t).1 =
      (try_error_submit env t ("Path not allowed by agent permissions: " ++ p)).1 := by
    unfold execute_task
    rw [hf]
  have hall := try_error_submit_events env t ("Path not allowed by agent permissions: " ++ p)
  refine ⟨?_, ?_, ?_, ?_⟩
  · rw [hev]
    intro hmem
    obtain ⟨m, hm⟩ := hall _ hmem
    exact absurd hm (by simp)
  · rw [hev]
    intro hmem
    obtain ⟨m, hm⟩ := hall _ hmem
    exact absurd hm (by simp)
  · rw [hev]
    exact hall
  · intro h
    rw [hev, try_error_submit_ok env t _ h]
    exact ⟨_, rfl⟩

/-- Environment for the C6 witness: only "/etc/shadow" is denied, the check
(if it ever ran) would pass, and submissions succeed. -/
def c6wEnv : DispatchEnv :=
  ⟨fun p => !(p == "/etc/shadow"),
   fun _ => some (.returns ⟨.passed, 100, none⟩),
   fun _ => .ok⟩

/-- The task dispatched in the C6 witness, configured with a denied path. -/
def c6wTask : TaskM := ⟨"task-2", "DISK_USAGE", ["/etc/shadow"]⟩

/-- Witness for C6: a task carrying the denied path "/etc/shadow" produces no
instantiation and exactly one ERROR submission. -/
theorem c6_denied_path_no_execute_witness :
    DispatchEvent.instantiate ∉ (execute_task c6wEnv c6wTask).1 ∧
    ∃ m, (execute_task c6wEnv c6wTask).1 =
      [DispatchEvent.submitAttempt ⟨"task-2", "ERROR", 0, some m⟩] := by
  have h := c6_denied_path_no_execute c6wEnv c6wTask (by rfl)
  exact ⟨h.1, h.2.2.2 (fun n => rfl)⟩

/-! ## Task field resolution in ApiClient.get_tasks (api_client.py 279, 283) -/

/-- The id resolver of get_tasks line 279:
`task_data.get('taskId') or task_data.get('id')` — Python `or` takes the
left value only when it is truthy. -/
def resolveTaskId (o : List (String × JVal)) : JVal :=
  pyOr (dictGet o "taskId" .null) (dictGet o "id" .null)

/-- The config resolver of get_tasks line 283:
`task_data.get('checkConfig') or task_data.get('config', {})`. -/
def resolveTaskConfig (o : List (String × JVal)) : JVal :=
  pyOr (dictGet o "checkConfig" .null) (dictGet o "config" (.obj []))

/-- A task object in which "taskId" is present but bound to the empty string
(falsy) while "id" is bound to "task-7". -/
def c8ceTaskData : List (String × JVal) :=
  [("taskId", .str ""), ("id", .str "task-7"), ("checkId", .str "chk-1"),
   ("checkType", .str "DISK_USAGE"), ("siteId", .str "site-1")]

/-- Claim C8 counterexample: "taskId" is present in the task object, yet its
value is not taken: because Python `or` drops falsy values, the empty-string
"taskId" falls through to "id", refuting "the Task's id is taken from
'taskId' when present". -/
theorem c8_counterexample :
    List.lookup "taskId" c8ceTaskData = some (JVal.str "") ∧
    resolveTaskId c8ceTaskData = JVal.str "task-7" ∧
    resolveTaskId c8ceTaskData ≠ JVal.str "" := by
  refine ⟨rfl, rfl, ?_⟩
  intro h
  rw [show resolveTaskId c8ceTaskData = JVal.str "task-7" from rfl] at h
  simp at h

/-- Claim C8 (amended): the Task's id is taken from 'taskId' when that key is
present with a truthy value (e.g. a non-empty string) and otherwise from
'id'; the config is taken from 'checkConfig' when present with a truthy value
and otherwise from 'config', defaulting to an empty map when both keys are
absent. -/
theorem c8_field_fallback (o : List (String × JVal)) :
    ((dictGet o "taskId" .null).truthy = true →
      resolveTaskId o = dictGet o "taskId" .null) ∧
    ((dictGet o "taskId" .null).truthy = false →
      resolveTaskId o = dictGet o "id" .null) ∧
    ((dictGet o "checkConfig" .null).truthy = true →
      resolveTaskConfig o = dictGet o "checkConfig" .null) ∧
    ((dictGet o "checkConfig" .null).truthy = false →
      resolveTaskConfig o = dictGet o "config" (.obj [])) ∧
    (List.lookup "checkConfig" o = none → List.lookup "config" o = none →
      resolveTaskConfig o = JVal.obj []) := by
  refine ⟨?_, ?_, ?_, ?_, ?_⟩
  · intro h
    simp [resolveTaskId, pyOr, h]
  · intro h
    simp [resolveTaskId, pyOr, h]
  · intro h
    simp [resolveTaskConfig, pyOr, h]
  · intro h
    simp [resolveTaskConfig, pyOr, h]
  · intro h1 h2
    simp [resolveTaskConfig, pyOr, dictGet, h1, h2, JVal.truthy]

/-- Witness for (amended) C8: a truthy "taskId" wins, and with both config
keys absent the config defaults to the empty map. -/
theorem c8_field_fallback_witness :
    resolveTaskId [("taskId", JVal.str "task-9"), ("id", JVal.str "other")] =
      dictGet [("taskId", JVal.str "task-9"), ("id", JVal.str "other")] "taskId" .null ∧
    resolveTaskConfig [("taskId", JVal.str "task-9")] = JVal.obj [] := by
  constructor
  · exact (c8_field_fallback [("taskId", JVal.str "task-9"), ("id", JVal.str "other")]).1
      rfl
  · exact (c8_field_fallback [("taskId", JVal.str "task-9")]).2.2.2.2 rfl rfl

end HexaScan
